import Mathlib

/-!
Verification of the request-orchestration core of an agent-server backend.

Shallow embedding, translated from the Python sources:
  backend/services/session_manager.py   (Session Store)
  backend/tools/km_connector.py         (Knowledge Connector)
  backend/agent_manager.py              (Orchestrator tool selection)
  backend/agents/openai_agent.py        (conversational history trimming)

Modelling conventions used throughout:
  - Python dicts are insertion-ordered association lists; `dict_get` and
    `dict_set` mirror lookup and in-place assignment.
  - Wall-clock timestamps are abstract `Nat` instants supplied by the caller.
  - uuid generation is an explicit fresh-string argument supplied by the caller.
  - Backend float distances and relevance scores are modelled over `Int`
    (every operation the code performs on them - subtraction from 1, max with
    0, comparison with 0, truthiness - is ordered-ring material).
  - Network calls are an explicit environment: a function from the request
    made to `Except` of the error raised or the response body.
-/

/-- Python truthiness of an optional string: `None` and the empty string are
falsy (`if session_id:`, `if not api_key:`). -/
def pyTruthyOptStr : Option String → Bool
  | none => false
  | some s => s ≠ ""

/-- Python truthiness of an optional string field (`if result.collection_name:`). -/
def pyTruthyStr (s : Option String) : Bool := pyTruthyOptStr s

/-- Python truthiness of an optional integer (`elif result.corpus_id:`):
`None` and `0` are falsy. -/
def pyTruthyInt : Option Int → Bool
  | none => false
  | some n => n ≠ 0

/-- Python `max(a, b)`: returns `b` only when it is strictly larger. -/
def pyMax (a b : Int) : Int := if a < b then b else a

/-- Lookup in an insertion-ordered dict modelled as an association list. -/
def dict_get {α : Type} : List (String × α) → String → Option α
  | [], _ => none
  | (k, v) :: rest, key => if k = key then some v else dict_get rest key

/-- Assignment `m[key] = v` on an insertion-ordered dict: replace in place
when the key exists, append otherwise. -/
def dict_set {α : Type} : List (String × α) → String → α → List (String × α)
  | [], key, v => [(key, v)]
  | (k, w) :: rest, key, v =>
    if k = key then (key, v) :: rest else (k, w) :: dict_set rest key v

theorem dict_get_dict_set_self {α : Type} (m : List (String × α)) (k : String) (v : α) :
    dict_get (dict_set m k v) k = some v := by
  induction m with
  | nil => simp [dict_set, dict_get]
  | cons p rest ih =>
    by_cases h : p.1 = k
    · simp [dict_set, dict_get, h]
    · simp [dict_set, dict_get, h, ih]

/-! ## Session Store (backend/services/session_manager.py) -/

/-- Session-scoped KM connection record (`SessionKMConnection`); the
credential is a plaintext in-memory string. -/
structure SessionKMConnection where
  id : String
  name : String
  username : String
  api_key : String
  status : String := "active"
  selected_collection_names : List String := []
  selected_corpus_ids : List Int := []
deriving DecidableEq, Repr

/-- Custom agent endpoint configuration (`CustomEndpoint`). -/
structure CustomEndpoint where
  id : String
  name : String
  url : String
  api_key : String
  model : String
deriving DecidableEq, Repr

/-- Complete state for a single session (`SessionState`). The `Any`-valued
per-agent config override dicts are modelled as opaque string dicts. -/
structure SessionState where
  session_id : String
  conversation_id : String
  created_at : Nat
  last_activity : Nat
  km_connections : List (String × SessionKMConnection) := []
  custom_endpoints : List (String × CustomEndpoint) := []
  agent_config_overrides : List (String × List (String × String)) := []
  files : List String := []
deriving DecidableEq, Repr

/-- The Session Store map `self._sessions`. -/
def SessionsMap : Type := List (String × SessionState)

/-- The lookup `if session_id and session_id in self._sessions` followed by
`self._sessions[session_id]`: a falsy (missing or empty) id never matches. -/
def pyLookupSession (m : SessionsMap) (session_id : Option String) : Option SessionState :=
  match session_id with
  | none => none
  | some sid => if sid = "" then none else dict_get m sid

/-- `SessionManager.get_or_create_session` (session_manager.py lines 120-138).
`now` is the current wall-clock instant; `freshSid` and `freshConv` are the
uuid strings the two `uuid.uuid4()` calls would produce. Returns the session
handed back to the caller and the updated store. -/
def get_or_create_session (m : SessionsMap) (session_id : Option String)
    (now : Nat) (freshSid freshConv : String) : SessionState × SessionsMap :=
  match pyLookupSession m session_id with
  | some session =>
    let bumped := { session with last_activity := now }
    (bumped, dict_set m (session_id.getD "") bumped)
  | none =>
    let new_id : String :=
      if pyTruthyOptStr session_id then session_id.getD "" else "session_" ++ freshSid
    let conv_id : String := "conv_" ++ freshConv
    let session : SessionState :=
      { session_id := new_id, conversation_id := conv_id,
        created_at := now, last_activity := now }
    (session, dict_set m new_id session)

/-! ## Knowledge Connector data model (backend/models/km_models.py) -/

/-- Status of a KM connection (`KMConnectionStatus`). -/
inductive KMConnectionStatus where
  | active
  | inactive
  | error
deriving DecidableEq, Repr

/-- The metadata dict attached to one backend result row; the code reads the
keys `source` and `collection` (absent keys are `none`). -/
structure KMMeta where
  source : Option String := none
  collection : Option String := none
deriving DecidableEq, Repr

/-- Single result from a KM query (`KMQueryResult`); the float relevance is
modelled over `Int`. -/
structure KMQueryResult where
  content : String
  source : String
  collection_name : Option String := none
  corpus_id : Option Int := none
  relevance_score : Option Int := none
  metadata : KMMeta := {}
deriving DecidableEq, Repr

/-- Aggregated per-connection search result (`KMSearchResult`); `context` is
always assigned a string by `_query_connection`. -/
structure KMSearchResult where
  success : Bool
  message : String
  connection_id : String
  connection_name : String
  results_count : Nat
  results : List KMQueryResult
  context : String
deriving DecidableEq, Repr

/-- Stored KM connection (`KMConnection`): the fields `_query_connection` and
`search_and_store` read. The encrypted credential is held by the storage
service and surfaces only through `get_connection_api_key`, modelled below as
a separate map; wall-clock timestamp fields are not modelled. -/
structure KMConnection where
  id : String
  name : String
  status : KMConnectionStatus
  selected_collection_names : List String := []
  selected_corpus_ids : List Int := []
  last_error : Option String := none
deriving DecidableEq, Repr

/-- The exceptions of km_connector.py: KMAuthenticationError, KMTimeoutError,
KMConnectionError, KMServerError, KMRateLimitError, each carrying `str(e)`. -/
inductive KMError where
  | authentication (msg : String)
  | timeout (msg : String)
  | connection (msg : String)
  | server (msg : String)
  | rateLimit (msg : String)
deriving DecidableEq, Repr

/-- One entry of the `errors` list built by `search_and_store`. -/
structure KMErrorEntry where
  connection_id : String
  connection_name : String
  error_type : String
  message : String
deriving DecidableEq, Repr

/-- The `error_type` string the except-clauses of `search_and_store` record:
`authentication` and `timeout` have dedicated clauses, every other exception
falls to the generic clause recording `unknown`. -/
def errorType : KMError → String
  | .authentication _ => "authentication"
  | .timeout _ => "timeout"
  | .connection _ => "unknown"
  | .server _ => "unknown"
  | .rateLimit _ => "unknown"

/-- `str(e)` of a raised KM exception. -/
def errorMessage : KMError → String
  | .authentication msg => msg
  | .timeout msg => msg
  | .connection msg => msg
  | .server msg => msg
  | .rateLimit msg => msg

/-- The error dict appended for a failing connection. -/
def errorEntry (c : KMConnection) (e : KMError) : KMErrorEntry :=
  { connection_id := c.id, connection_name := c.name,
    error_type := errorType e, message := errorMessage e }

/-! ## Knowledge Connector state and environment (backend/tools/km_connector.py,
backend/services/km_connection_storage.py) -/

/-- Mutable state of `KMConnectorTool` and its storage service: the stored
connections (`KMConnectionStorage._connections`, an insertion-ordered dict
keyed by the id field of each value) and the set of connection ids holding a
cached client (`KMConnectorTool._clients`). -/
structure ConnectorState where
  storage : List KMConnection
  clients : List String
deriving DecidableEq, Repr

/-- `KMConnectionStorage.get_connection`. -/
def getConnection (storage : List KMConnection) (connection_id : String) :
    Option KMConnection :=
  storage.find? (fun c => c.id = connection_id)

/-- `KMConnectionStorage.get_active_connections_with_selections`: active and
at least one of the two selection lists non-empty (Python `or` truthiness). -/
def getActiveConnectionsWithSelections (storage : List KMConnection) :
    List KMConnection :=
  storage.filter (fun c =>
    c.status = KMConnectionStatus.active ∧
    (c.selected_collection_names ≠ [] ∨ c.selected_corpus_ids ≠ []))

/-- `KMConnectionStorage.update_status`: sets status and last_error on the
connection with the given id (no-op when the id is absent). -/
def updateStatus (storage : List KMConnection) (connection_id : String)
    (status : KMConnectionStatus) (err : String) : List KMConnection :=
  storage.map (fun c =>
    if c.id = connection_id then { c with status := status, last_error := some err } else c)

/-- `KMConnectorTool._clear_client_cache`. -/
def clearClientCache (st : ConnectorState) (connection_id : String) : ConnectorState :=
  { st with clients := st.clients.filter (fun cid => cid ≠ connection_id) }

/-- `KMConnectorTool._get_client`: a cached client is reused; otherwise the
storage is asked for the plaintext API key (falsy result means no client) and
a freshly built client is cached. Returns whether a client is available and
the updated state. `apiKeys` models `get_connection_api_key`. -/
def getClient (apiKeys : String → Option String) (st : ConnectorState)
    (connection_id : String) : Bool × ConnectorState :=
  if st.clients.contains connection_id then (true, st)
  else if pyTruthyOptStr (apiKeys connection_id) then
    (true, { st with clients := st.clients ++ [connection_id] })
  else (false, st)

/-- The first-row `documents` / `metadatas` / `distances` lists extracted from
the `raw_results` field of one backend response body. -/
structure RawResponse where
  documents : List String
  metadatas : List KMMeta
  distances : List Int
deriving DecidableEq, Repr

/-- The network environment of one `search_and_store` call: what the backend
answers (or which exception the request raises) for the collections query of
a connection and for each corpus query, given the user query string. -/
structure KMEnv where
  collectionsResp : String → String → Except KMError RawResponse
  corpusResp : String → String → Int → Except KMError RawResponse

/-! ## Result parsing and ranking (KMConnectorTool._query_connection) -/

/-- Python `zip(documents, metadatas, distances)`: truncates to the shortest. -/
def zip3 {α β γ : Type} : List α → List β → List γ → List (α × β × γ)
  | a :: as, b :: bs, c :: cs => (a, b, c) :: zip3 as bs cs
  | _, _, _ => []

/-- The stored relevance of one parsed row: `max(0, 1 - dist) if dist else
None`. A zero (or missing, modelled as zero) distance is falsy, so the score
is `None` rather than `max(0, 1 - 0) = 1`. -/
def pyRelevance (dist : Int) : Option Int :=
  if dist = 0 then none else some (pyMax 0 (1 - dist))

/-- Parsing of the collections-query response body (lines 500-508): one
`KMQueryResult` per zipped row; `collection_name` defaults to the first
selected collection name when the metadata has no `collection` key. -/
def parseCollectionResults (selNames : List String) (resp : RawResponse) :
    List KMQueryResult :=
  (zip3 resp.documents resp.metadatas resp.distances).map (fun row =>
    { content := row.1,
      source := row.2.1.source.getD "Unknown",
      collection_name :=
        match row.2.1.collection with
        | some c => some c
        | none => selNames.head?,
      corpus_id := none,
      relevance_score := pyRelevance row.2.2,
      metadata := row.2.1 })

/-- Parsing of one corpus-query response body (lines 529-536). -/
def parseCorpusResults (corpusId : Int) (resp : RawResponse) : List KMQueryResult :=
  (zip3 resp.documents resp.metadatas resp.distances).map (fun row =>
    { content := row.1,
      source := row.2.1.source.getD "Unknown",
      collection_name := none,
      corpus_id := some corpusId,
      relevance_score := pyRelevance row.2.2,
      metadata := row.2.1 })

/-- The sort key `x.relevance_score or 0`. -/
def relKey (r : KMQueryResult) : Int := r.relevance_score.getD 0

/-- Stable insertion of `x` into a list already sorted by descending key:
`x` goes after every element whose key is at least its own. -/
def insertDescByRel (x : KMQueryResult) : List KMQueryResult → List KMQueryResult
  | [] => [x]
  | y :: ys => if relKey x ≤ relKey y then y :: insertDescByRel x ys else x :: y :: ys

/-- `list.sort(key=lambda x: x.relevance_score or 0, reverse=True)`: a stable
descending sort (CPython sort is stable; any stable sort under the same key
ordering produces the same list). -/
def sortByRelevanceDesc (l : List KMQueryResult) : List KMQueryResult :=
  l.foldl (fun acc x => insertDescByRel x acc) []

/-! ## Context formatting (KMConnectorTool.get_km_context, lines 572-637) -/

/-- Python `'\n'.join(parts)`. -/
def joinNl : List String → String
  | [] => ""
  | [x] => x
  | x :: xs => x ++ "\n" ++ joinNl xs

/-- Truncation of one result body: `content[:500] + "..."` when longer than
500 characters. -/
def truncateContent (c : String) : String :=
  if 500 < c.length then String.mk (c.data.take 500) ++ "..." else c

/-- The header line of the formatted context block. -/
def kmContextHeader : String := "=== Knowledge Base Results ==="

/-- The footer line of the formatted context block. -/
def kmContextFooter : String := "=== End Knowledge Base Results ==="

/-- The separator row `"-" * 50`. -/
def dashRow : String := String.mk (List.replicate 50 '-')

/-- Rendering of a float with two decimals (`f"{relevance:.2f}"`); exact on
the integer-modelled scores. -/
def formatRelevance (v : Int) : String := toString v ++ ".00"

/-- The guard that skips a result: `relevance is not None and relevance < 0`. -/
def negativeRelevance (r : KMQueryResult) : Bool :=
  match r.relevance_score with
  | some v => v < 0
  | none => false

/-- The text block built for result number `i` (1-based, counting skipped
results too, as `enumerate(results, 1)` does). -/
def resultPart (i : Nat) (r : KMQueryResult) : String :=
  let part := "\n[Result " ++ toString i ++ "]"
  let part := part ++ "\nSource: " ++ r.source
  let part := part ++
    (if pyTruthyStr r.collection_name then
      " (Collection: " ++ r.collection_name.getD "" ++ ")"
     else if pyTruthyInt r.corpus_id then
      " (Corpus ID: " ++ toString (r.corpus_id.getD 0) ++ ")"
     else "")
  let part := part ++
    (if r.content ≠ "" then "\nContent: " ++ truncateContent r.content else "")
  let part := part ++
    (match r.relevance_score with
     | some v => "\nRelevance: " ++ formatRelevance v
     | none => "")
  part ++ "\n" ++ dashRow

/-- The formatting loop: skip negative-relevance results, build the part for
each remaining result, and break out of the loop (returning the parts
accumulated so far) as soon as the joined parts plus the next part would
exceed `maxLen`. -/
def buildParts (maxLen : Nat) : List KMQueryResult → Nat → List String → List String
  | [], _, parts => parts
  | r :: rest, i, parts =>
    if negativeRelevance r then buildParts maxLen rest (i + 1) parts
    else
      let part := resultPart i r
      if maxLen < (joinNl parts).length + part.length then parts
      else buildParts maxLen rest (i + 1) (parts ++ [part])

/-- `KMConnectorTool.get_km_context`: empty input or no surviving result
yields the empty string; otherwise header, parts and footer joined by
newlines. The footer is appended after the length check. -/
def get_km_context (results : List KMQueryResult) (max_length : Nat := 4000) : String :=
  if results.isEmpty then ""
  else
    let parts := buildParts max_length results 1 [kmContextHeader]
    if parts.length = 1 then ""
    else joinNl (parts ++ [kmContextFooter])

/-! ## Per-connection query (KMConnectorTool._query_connection, lines 429-570) -/

/-- The result returned for a connection with no selected collections and no
selected corpuses. -/
def emptySelectionResult (c : KMConnection) : KMSearchResult :=
  { success := true,
    message := "No collections or corpuses selected",
    connection_id := c.id,
    connection_name := c.name,
    results_count := 0,
    results := [],
    context := "" }

/-- The corpus loop (lines 515-540): one request per selected corpus id; a
failing corpus query is logged and skipped, the loop continues. -/
def runCorpusQueries (env : KMEnv) (query : String) (connection_id : String) :
    List Int → List KMQueryResult
  | [] => []
  | corpusId :: rest =>
    match env.corpusResp query connection_id corpusId with
    | .error _ => runCorpusQueries env query connection_id rest
    | .ok resp => parseCorpusResults corpusId resp ++ runCorpusQueries env query connection_id rest

/-- The collections-query step (lines 470-512): skipped when no collection is
selected, otherwise one request whose exception is re-raised out of
`_query_connection`. -/
def collectionsQuery (env : KMEnv) (query : String) (c : KMConnection) :
    Except KMError (List KMQueryResult) :=
  if c.selected_collection_names = [] then .ok []
  else
    match env.collectionsResp query c.id with
    | .error e => .error e
    | .ok resp => .ok (parseCollectionResults c.selected_collection_names resp)

/-- `KMConnectorTool._query_connection`: client lookup (raising
KMConnectionError when none can be built), the empty-selection early return,
the collections query (whose exception is re-raised), the corpus loop, the
stable relevance sort, truncation to `n_results * 2` entries and context
formatting. Returns the raised exception or the `KMSearchResult`, with the
updated connector state. -/
def query_connection (apiKeys : String → Option String) (env : KMEnv)
    (st : ConnectorState) (c : KMConnection) (query : String) (n_results : Nat) :
    Except KMError KMSearchResult × ConnectorState :=
  let cl := getClient apiKeys st c.id
  if cl.1 = false then
    (.error (.connection ("Could not create client for connection " ++ c.id)), cl.2)
  else if c.selected_collection_names = [] ∧ c.selected_corpus_ids = [] then
    (.ok (emptySelectionResult c), cl.2)
  else
    match collectionsQuery env query c with
    | .error e => (.error e, cl.2)
    | .ok colResults =>
      let allResults := colResults ++ runCorpusQueries env query c.id c.selected_corpus_ids
      let limited := (sortByRelevanceDesc allResults).take (n_results * 2)
      (.ok { success := true,
             message := "Retrieved " ++ toString limited.length ++ " results",
             connection_id := c.id,
             connection_name := c.name,
             results_count := limited.length,
             results := limited,
             context := get_km_context limited }, cl.2)

/-! ## Aggregation (KMConnectorTool.search_and_store, lines 332-427) -/

/-- The aggregate dict returned when at least one connection was selected. -/
structure AggregateResult where
  success : Bool
  message : String
  results : List KMSearchResult
  results_count : Nat
  connections_queried : Nat
  connections_successful : Nat
  errors : List KMErrorEntry
  partial_failure : Bool
deriving DecidableEq, Repr

/-- The two shapes `search_and_store` returns: the early not-configured dict
(success false, empty results, no accounting fields) or the aggregate dict. -/
inductive SearchResponse where
  | notConfigured (message : String)
  | aggregate (r : AggregateResult)
deriving DecidableEq, Repr

/-- Connection selection (lines 356-370): an explicit truthy id list is
resolved id by id, dropping unknown ids and keeping only active connections;
a missing or empty list selects every active connection with selections. -/
def selectConnections (storage : List KMConnection)
    (connection_ids : Option (List String)) : List KMConnection :=
  match connection_ids with
  | some ids =>
    if ids = [] then getActiveConnectionsWithSelections storage
    else (ids.filterMap (getConnection storage)).filter
      (fun c => c.status = KMConnectionStatus.active)
  | none => getActiveConnectionsWithSelections storage

/-- The state mutation of the except-clauses (lines 387-413): an
authentication failure marks the connection status `error` and clears its
cached client; a timeout or any other exception records its entry only and
leaves the connector state untouched. -/
def recordError (st : ConnectorState) (c : KMConnection) (e : KMError) : ConnectorState :=
  match e with
  | .authentication msg =>
    clearClientCache { st with storage := updateStatus st.storage c.id .error msg } c.id
  | _ => st

/-- The per-connection loop of `search_and_store` (lines 383-413): each
selected connection is queried in turn; a success appends its result, a
failure appends its error entry and applies `recordError`; the loop never
aborts early. Returns `(all_results, errors, state)`. -/
def runConnections (apiKeys : String → Option String) (env : KMEnv)
    (query : String) (n_results : Nat) :
    List KMConnection → ConnectorState →
    List KMSearchResult × List KMErrorEntry × ConnectorState
  | [], st => ([], [], st)
  | c :: rest, st =>
    let qr := query_connection apiKeys env st c query n_results
    match qr.1 with
    | .ok r =>
      let t := runConnections apiKeys env query n_results rest qr.2
      (r :: t.1, t.2.1, t.2.2)
    | .error e =>
      let t := runConnections apiKeys env query n_results rest (recordError qr.2 c e)
      (t.1, errorEntry c e :: t.2.1, t.2.2)

/-- `KMConnectorTool.search_and_store`: connection selection, the
not-configured early return, the per-connection loop and the aggregate dict
(success iff some connection answered; `partial_failure` iff at least one
error and at least one success). The unused conversation id parameter is kept
from the Python signature. -/
def search_and_store (apiKeys : String → Option String) (env : KMEnv)
    (st : ConnectorState) (_conversation_id user_query : String)
    (connection_ids : Option (List String)) (n_results : Nat) :
    SearchResponse × ConnectorState :=
  let connections := selectConnections st.storage connection_ids
  if connections = [] then
    (.notConfigured "No active KM connections with selections found", st)
  else
    let t := runConnections apiKeys env user_query n_results connections st
    let total_results := (t.1.map (fun r => r.results_count)).sum
    (.aggregate
      { success := decide (0 < t.1.length),
        message := "Retrieved " ++ toString total_results ++ " results from "
          ++ toString t.1.length ++ " connection(s)",
        results := t.1,
        results_count := total_results,
        connections_queried := connections.length,
        connections_successful := t.1.length,
        errors := t.2.1,
        partial_failure := decide (0 < t.2.1.length) && decide (0 < t.1.length) },
     t.2.2)

/-! ## Orchestrator tool selection (AgentManager._execute_tools, lines 182-245) -/

/-- Container for tool execution results (`ToolResult`); the `Any`-typed
`data` payload is opaque and the wall-clock timestamp is not modelled. -/
structure ToolResult where
  tool_name : String
  success : Bool
  data : Option String := none
  error : Option String := none
  context : Option String := none
deriving DecidableEq, Repr

/-- The outcomes the three tool executors would produce for this query, as
environment (each executor already converts its own exceptions into a
failure `ToolResult`). -/
structure ToolsEnv where
  webResult : ToolResult
  kmResult : ToolResult
  fileResult : ToolResult

/-- The entry appended when files were uploaded but file search is not
available. -/
def fileSearchUnavailable : ToolResult :=
  { tool_name := "file_search", success := false,
    error := some "File search not available", context := none }

/-- `AgentManager._execute_tools`: web search runs iff its flag is set and
the tool is available; KM search runs iff its flag is set and the KM
connector tool object exists; file search runs iff files were uploaded,
producing an explicit failure entry when the tool is unavailable. -/
def execute_tools (env : ToolsEnv) (web_available file_available : Bool)
    (km_tool_set : Bool) (enable_web_search enable_km_search : Bool)
    (uploaded_files : List String) : List ToolResult :=
  let r0 : List ToolResult := []
  let r1 := if enable_web_search && web_available then r0 ++ [env.webResult] else r0
  let r2 := if enable_km_search && km_tool_set then r1 ++ [env.kmResult] else r1
  if uploaded_files ≠ [] then
    if file_available then r2 ++ [env.fileResult]
    else r2 ++ [fileSearchUnavailable]
  else r2

/-! ## Conversational history trimming (OpenAIAgent.query, lines 186-192) -/

/-- One conversation history message. -/
structure ChatMessage where
  role : String
  content : String
deriving DecidableEq, Repr

/-- Python `lst[-k:]`: the last `k` elements - except that `lst[-0:]` is the
whole list, so `k = 0` trims nothing. -/
def pySliceLast {α : Type} (l : List α) (k : Nat) : List α :=
  if k = 0 then l else l.drop (l.length - k)

/-- The history update of one completed `OpenAIAgent.query` turn: append the
user message and the reply, then, when the history exceeds
`max_history_messages * 2` entries, keep only the last
`max_history_messages * 2`. -/
def historyAfterTurn (max_history_messages : Nat) (history : List ChatMessage)
    (userMsg replyMsg : String) : List ChatMessage :=
  let h := history ++
    [{ role := "user", content := userMsg }, { role := "assistant", content := replyMsg }]
  if max_history_messages * 2 < h.length then pySliceLast h (max_history_messages * 2)
  else h

/-- The stored history after a sequence of completed turns, starting from an
empty conversation. -/
def historyAfterTurns (max_history_messages : Nat)
    (turns : List (String × String)) : List ChatMessage :=
  turns.foldl (fun h t => historyAfterTurn max_history_messages h t.1 t.2) []

/-! ## Claim C1 - Session Store get_or_create -/

theorem session_prefix_ne_empty (fS : String) : "session_" ++ fS ≠ "" := by
  intro h
  have hlen : ("session_" ++ fS).length = 0 := by rw [h]; rfl
  rw [String.length_append] at hlen
  have h8 : ("session_" : String).length = 8 := rfl
  omega

theorem new_session_id_ne_empty (sid : Option String) (fS : String) :
    (if pyTruthyOptStr sid then sid.getD "" else "session_" ++ fS) ≠ "" := by
  match sid with
  | none => simp [pyTruthyOptStr, session_prefix_ne_empty]
  | some t =>
    by_cases ht : t = ""
    · simp [pyTruthyOptStr, ht, session_prefix_ne_empty]
    · simp [pyTruthyOptStr, ht]

/-- Claim C1 (counterexample): calling `get_or_create_session` on an empty
store with the unknown (but supplied) session id `s1` does not allocate a new
session id: the returned record carries the supplied id `s1`, and nothing is
inserted under the id `session_F` that a fresh allocation would have
produced. -/
theorem c1_counterexample :
    (get_or_create_session [] (some "s1") 0 "F" "G").1.session_id = "s1" ∧
    dict_get (get_or_create_session [] (some "s1") 0 "F" "G").2 ("session_" ++ "F") = none ∧
    ("s1" : String) ≠ "session_" ++ "F" := by
  decide

/-- Claim C1 (amended): on a lookup miss (including a missing or empty id), a
fresh conversation id is always generated, the record is created with the
supplied session id when a truthy one was given (a fresh `session_`-prefixed
id is allocated only when none was), the record is inserted under its id so
that a second lookup with that id finds exactly it (no duplicate
allocation), and it is returned with creation and last-activity set to now;
on a hit, the stored session is returned with last-activity bumped and the
store is updated in place. -/
theorem c1_get_or_create_session_spec :
    (∀ (m : SessionsMap) (sid : Option String) (now : Nat) (fS fC : String),
      pyLookupSession m sid = none →
        (get_or_create_session m sid now fS fC).1.conversation_id = "conv_" ++ fC ∧
        (get_or_create_session m sid now fS fC).1.session_id =
          (if pyTruthyOptStr sid then sid.getD "" else "session_" ++ fS) ∧
        (get_or_create_session m sid now fS fC).1.created_at = now ∧
        (get_or_create_session m sid now fS fC).1.last_activity = now ∧
        pyLookupSession (get_or_create_session m sid now fS fC).2
            (some (get_or_create_session m sid now fS fC).1.session_id) =
          some (get_or_create_session m sid now fS fC).1) ∧
    (∀ (m : SessionsMap) (sid : Option String) (now : Nat) (fS fC : String) (s : SessionState),
      pyLookupSession m sid = some s →
        (get_or_create_session m sid now fS fC).1 = { s with last_activity := now } ∧
        (get_or_create_session m sid now fS fC).2 =
          dict_set m (sid.getD "") { s with last_activity := now }) := by
  constructor
  · intro m sid now fS fC h
    have hne := new_session_id_ne_empty sid fS
    refine ⟨?_, ?_, ?_, ?_, ?_⟩ <;> simp only [get_or_create_session, h]
    simp only [pyLookupSession, if_neg hne]
    exact dict_get_dict_set_self m _ _
  · intro m sid now fS fC s h
    exact ⟨by simp only [get_or_create_session, h], by simp only [get_or_create_session, h]⟩

/-- Claim C1 witness: both branches of the theorem applied at concrete
inputs. -/
theorem c1_witness :
    (get_or_create_session [] none 1 "A" "B").1.conversation_id = "conv_" ++ "B" ∧
    (get_or_create_session
        [("s", { session_id := "s", conversation_id := "c0",
                 created_at := 0, last_activity := 0 })]
        (some "s") 2 "C" "D").1 =
      { session_id := "s", conversation_id := "c0",
        created_at := 0, last_activity := 2 } :=
  ⟨(c1_get_or_create_session_spec.1 [] none 1 "A" "B" rfl).1,
   (c1_get_or_create_session_spec.2
      [("s", { session_id := "s", conversation_id := "c0",
               created_at := 0, last_activity := 0 })]
      (some "s") 2 "C" "D"
      { session_id := "s", conversation_id := "c0",
        created_at := 0, last_activity := 0 } (by decide)).1⟩

/-! ## Claim C2 - aggregate accounting and partial failure -/

/-- Projection of the aggregate dict out of a `search_and_store` response. -/
def aggregateOf : SearchResponse → Option AggregateResult
  | .notConfigured _ => none
  | .aggregate r => some r

/-- Two active connections with a selected collection each. -/
def connActiveA : KMConnection :=
  { id := "ka", name := "A", status := .active, selected_collection_names := ["col"] }

/-- Second active connection of the scenario. -/
def connActiveB : KMConnection :=
  { id := "kb", name := "B", status := .active, selected_collection_names := ["col"] }

/-- A backend response body holding one document at distance 2. -/
def oneDocResponse : RawResponse :=
  { documents := ["doc"], metadatas := [{ source := some "f.txt" }], distances := [2] }

/-- An environment in which connection `ka` fails authentication and every
other collections query answers with one document. -/
def envAuthFailA : KMEnv :=
  { collectionsResp := fun _ cid =>
      if cid = "ka" then .error (.authentication "Invalid or expired API key")
      else .ok oneDocResponse,
    corpusResp := fun _ _ _ => .error (.server "unused") }

/-- A key store answering every connection id with the same API key. -/
def constKeys : String → Option String := fun _ => some "key"

/-- Claim C2: every aggregate response reports the count of connections
queried (the selected set), the count that answered successfully (one per
entry of the results list), the total result count (the sum over the per-
connection counts), and sets `partial_failure` exactly when at least one
connection failed and at least one succeeded; in the concrete scenario where
one of two selected active connections fails authentication and the other
answers, the aggregate has `partial_failure` true, `connections_queried` 2
and a non-empty results list. -/
theorem c2_aggregate_accounting :
    (∀ (apiKeys : String → Option String) (env : KMEnv) (st : ConnectorState)
        (cid q : String) (ids : Option (List String)) (n : Nat)
        (r : AggregateResult) (st1 : ConnectorState),
      search_and_store apiKeys env st cid q ids n = (.aggregate r, st1) →
        r.connections_queried = (selectConnections st.storage ids).length ∧
        r.connections_successful = r.results.length ∧
        r.results_count = (r.results.map (fun x => x.results_count)).sum ∧
        (r.partial_failure = true ↔ (r.errors ≠ [] ∧ r.results ≠ []))) ∧
    ((aggregateOf (search_and_store constKeys envAuthFailA
        { storage := [connActiveA, connActiveB], clients := [] }
        "conv" "q" none 5).1).map (fun r => r.partial_failure) = some true ∧
     (aggregateOf (search_and_store constKeys envAuthFailA
        { storage := [connActiveA, connActiveB], clients := [] }
        "conv" "q" none 5).1).map (fun r => r.connections_queried) = some 2 ∧
     (aggregateOf (search_and_store constKeys envAuthFailA
        { storage := [connActiveA, connActiveB], clients := [] }
        "conv" "q" none 5).1).map (fun r => decide (r.results ≠ [])) = some true) := by
  constructor
  · intro apiKeys env st cid q ids n r st1 h
    unfold search_and_store at h
    by_cases hc : selectConnections st.storage ids = []
    · rw [if_pos hc] at h
      exact absurd (congrArg Prod.fst h) (by simp)
    · rw [if_neg hc] at h
      have h1 := congrArg Prod.fst h
      simp only at h1
      cases h1
      refine ⟨rfl, rfl, rfl, ?_⟩
      simp [List.length_pos]
  · refine ⟨by decide, by decide, by decide⟩

/-- Decidable equality on `Except`, used to evaluate concrete
`query_connection` outcomes. -/
instance {e a : Type} [DecidableEq e] [DecidableEq a] : DecidableEq (Except e a) := by
  intro x y
  cases x <;> cases y
  case error.error u v =>
    by_cases h : u = v
    · exact isTrue (by rw [h])
    · exact isFalse (by intro hc; cases hc; exact h rfl)
  case ok.ok u v =>
    by_cases h : u = v
    · exact isTrue (by rw [h])
    · exact isFalse (by intro hc; cases hc; exact h rfl)
  case error.ok u v => exact isFalse (by intro hc; cases hc)
  case ok.error u v => exact isFalse (by intro hc; cases hc)

/-! ## Claim C3 - per-connection isolation and error bookkeeping -/

/-- An active connection used in the timeout scenario. -/
def connTimeout : KMConnection :=
  { id := "kt", name := "T", status := .active, selected_collection_names := ["col"] }

/-- An environment in which every collections query times out. -/
def envTimeout : KMEnv :=
  { collectionsResp := fun _ _ => .error (.timeout "Request timed out"),
    corpusResp := fun _ _ _ => .error (.server "unused") }

/-- Claim C3 (counterexample): a connection whose query times out has its
error recorded, but its stored status is left `active` - it is not
transitioned to `error` as the claim states (that transition happens only
for authentication failures). -/
theorem c3_counterexample :
    (search_and_store constKeys envTimeout
        { storage := [connTimeout], clients := [] } "conv" "q" none 5).2.storage =
      [{ connTimeout with status := .active }] ∧
    (aggregateOf (search_and_store constKeys envTimeout
        { storage := [connTimeout], clients := [] } "conv" "q" none 5).1).map
      (fun r => r.errors.map (fun e => e.error_type)) = some [["timeout"]].head! ∧
    KMConnectionStatus.active ≠ KMConnectionStatus.error := by
  decide

/-- Claim C3 (amended): a failure of any kind on one connection appends that
connection's error entry and leaves the processing of the remaining
connections exactly as it would have been (no abort); an authentication
failure additionally marks the connection status `error` (with the message
as last error) and discards its cached client, while a timeout or any other
failure leaves the connector state untouched - in particular the status is
not transitioned for those kinds. -/
theorem c3_isolation_and_status :
    (∀ (apiKeys : String → Option String) (env : KMEnv) (q : String) (n : Nat)
        (st : ConnectorState) (c : KMConnection) (rest : List KMConnection) (e : KMError),
      (query_connection apiKeys env st c q n).1 = .error e →
        (runConnections apiKeys env q n (c :: rest) st).2.1 =
          errorEntry c e ::
            (runConnections apiKeys env q n rest
              (recordError (query_connection apiKeys env st c q n).2 c e)).2.1 ∧
        (runConnections apiKeys env q n (c :: rest) st).1 =
          (runConnections apiKeys env q n rest
            (recordError (query_connection apiKeys env st c q n).2 c e)).1) ∧
    (∀ (st : ConnectorState) (c : KMConnection) (msg : String),
      (recordError st c (.authentication msg)).storage =
        updateStatus st.storage c.id .error msg ∧
      (recordError st c (.authentication msg)).clients =
        st.clients.filter (fun cid => cid ≠ c.id)) ∧
    (∀ (st : ConnectorState) (c : KMConnection) (msg : String),
      recordError st c (.timeout msg) = st ∧
      recordError st c (.connection msg) = st ∧
      recordError st c (.server msg) = st ∧
      recordError st c (.rateLimit msg) = st) := by
  refine ⟨?_, ?_, ?_⟩
  · intro apiKeys env q n st c rest e h
    constructor <;> · simp only [runConnections, h]
  · intro st c msg
    exact ⟨rfl, rfl⟩
  · intro st c msg
    exact ⟨rfl, rfl, rfl, rfl⟩

/-- Claim C3 witness: the isolation equation applied to the concrete timeout
scenario with no remaining connections. -/
theorem c3_witness :
    (runConnections constKeys envTimeout "q" 5 [connTimeout]
        { storage := [connTimeout], clients := [] }).2.1 =
      errorEntry connTimeout (.timeout "Request timed out") ::
        (runConnections constKeys envTimeout "q" 5 []
          (recordError
            (query_connection constKeys envTimeout
              { storage := [connTimeout], clients := [] } connTimeout "q" 5).2
            connTimeout (.timeout "Request timed out"))).2.1 :=
  (c3_isolation_and_status.1 constKeys envTimeout "q" 5
    { storage := [connTimeout], clients := [] } connTimeout []
    (.timeout "Request timed out") (by decide)).1

/-! ## Claim C4 - relevance derivation and filtering -/

/-- Claim C4 (counterexample): a backend row at distance 0 (an exact match)
is parsed with relevance score `None`, not `max(0, 1 - 0) = 1`, because the
code guards the formula with the truthiness of the distance. -/
theorem c4_counterexample :
    (parseCollectionResults ["col"]
        { documents := ["d"], metadatas := [{ source := some "src" }],
          distances := [0] }).map (fun r => r.relevance_score) = [none] ∧
    (none : Option Int) ≠ some (pyMax 0 (1 - 0)) := by
  decide

/-- Claim C4 (amended): a parsed entry with non-zero distance d stores
relevance `max(0, 1 - d)`, while a zero (falsy) distance stores `None`; the
context formatter skips an entry exactly when it carries a score that is
strictly negative, so entries with zero relevance (and entries with no
score) are kept - and since the stored formula is clamped at 0, no parsed
entry is ever skipped. -/
theorem c4_relevance_spec :
    (∀ d : Int, d ≠ 0 → pyRelevance d = some (pyMax 0 (1 - d))) ∧
    pyRelevance 0 = none ∧
    (∀ r : KMQueryResult,
      negativeRelevance r = true ↔ ∃ v, r.relevance_score = some v ∧ v < 0) ∧
    (∀ r : KMQueryResult, r.relevance_score = some 0 → negativeRelevance r = false) ∧
    (∀ (selNames : List String) (resp : RawResponse) (r : KMQueryResult),
      r ∈ parseCollectionResults selNames resp → negativeRelevance r = false) ∧
    (∀ (corpusId : Int) (resp : RawResponse) (r : KMQueryResult),
      r ∈ parseCorpusResults corpusId resp → negativeRelevance r = false) ∧
    (∀ (maxLen i : Nat) (r : KMQueryResult) (rest : List KMQueryResult)
        (parts : List String),
      negativeRelevance r = true →
        buildParts maxLen (r :: rest) i parts = buildParts maxLen rest (i + 1) parts) := by
  have hrel : ∀ d : Int, negativeRelevance
      { content := "", source := "", relevance_score := pyRelevance d } = false := by
    intro d
    by_cases h : d = 0
    · simp [pyRelevance, h, negativeRelevance]
    · simp only [pyRelevance, if_neg h, negativeRelevance, pyMax,
        decide_eq_false_iff_not, not_lt]
      split <;> omega
  refine ⟨?_, rfl, ?_, ?_, ?_, ?_, ?_⟩
  · intro d h
    simp [pyRelevance, h]
  · intro r
    constructor
    · intro h
      match hs : r.relevance_score with
      | none => rw [negativeRelevance, hs] at h; exact absurd h (by simp)
      | some v =>
        rw [negativeRelevance, hs] at h
        exact ⟨v, rfl, by simpa using h⟩
    · rintro ⟨v, hs, hv⟩
      rw [negativeRelevance, hs]
      simpa using hv
  · intro r h
    rw [negativeRelevance, h]
    simp
  · intro selNames resp r hr
    rw [parseCollectionResults] at hr
    obtain ⟨row, _, rfl⟩ := List.mem_map.mp hr
    have := hrel row.2.2
    simpa [negativeRelevance] using this
  · intro corpusId resp r hr
    rw [parseCorpusResults] at hr
    obtain ⟨row, _, rfl⟩ := List.mem_map.mp hr
    have := hrel row.2.2
    simpa [negativeRelevance] using this
  · intro maxLen i r rest parts h
    simp only [buildParts, h, if_true]

/-- Claim C4 witness: the amended formula applied at distance 2, and the
skip equation applied to a strictly negative score. -/
theorem c4_witness :
    pyRelevance 2 = some (pyMax 0 (1 - 2)) ∧
    buildParts 4000
        [{ content := "x", source := "s", relevance_score := some (-1) }] 1
        [kmContextHeader] =
      buildParts 4000 [] 2 [kmContextHeader] :=
  ⟨c4_relevance_spec.1 2 (by decide),
   c4_relevance_spec.2.2.2.2.2.2 4000 1
     { content := "x", source := "s", relevance_score := some (-1) } [] [kmContextHeader]
     (by decide)⟩

/-! ## Claim C5 - bounded context block -/

theorem joinNl_cons (x : String) (l : List String) (h : l ≠ []) :
    joinNl (x :: l) = x ++ "\n" ++ joinNl l := by
  match l with
  | [] => exact absurd rfl h
  | a :: t => rfl

theorem joinNl_append_singleton_length (xs : List String) (y : String) (h : xs ≠ []) :
    (joinNl (xs ++ [y])).length = (joinNl xs).length + 1 + y.length := by
  induction xs with
  | nil => exact absurd rfl h
  | cons x t ih =>
    by_cases ht : t = []
    · subst ht
      show (x ++ "\n" ++ y).length = (joinNl [x]).length + 1 + y.length
      have h2 : joinNl [x] = x := rfl
      rw [h2]
      simp only [String.length_append]
      have h1 : ("\n" : String).length = 1 := rfl
      omega
    · rw [List.cons_append, joinNl_cons x (t ++ [y]) (by simp), joinNl_cons x t ht,
        String.length_append, String.length_append, String.length_append,
        String.length_append, ih ht]
      have h1 : ("\n" : String).length = 1 := rfl
      omega

theorem buildParts_skip (maxLen i : Nat) (r : KMQueryResult)
    (rest : List KMQueryResult) (parts : List String)
    (h : negativeRelevance r = true) :
    buildParts maxLen (r :: rest) i parts = buildParts maxLen rest (i + 1) parts := by
  simp only [buildParts, h, if_true]

theorem buildParts_stop (maxLen i : Nat) (r : KMQueryResult)
    (rest : List KMQueryResult) (parts : List String)
    (h : negativeRelevance r = false)
    (hb : maxLen < (joinNl parts).length + (resultPart i r).length) :
    buildParts maxLen (r :: rest) i parts = parts := by
  simp [buildParts, h, hb]

theorem buildParts_add (maxLen i : Nat) (r : KMQueryResult)
    (rest : List KMQueryResult) (parts : List String)
    (h : negativeRelevance r = false)
    (hb : ¬ maxLen < (joinNl parts).length + (resultPart i r).length) :
    buildParts maxLen (r :: rest) i parts =
      buildParts maxLen rest (i + 1) (parts ++ [resultPart i r]) := by
  simp [buildParts, h, hb]

/-- The loop either adds nothing, or leaves the joined parts within one
newline of the budget. -/
theorem buildParts_cases (maxLen : Nat) (rs : List KMQueryResult) :
    ∀ (i : Nat) (parts : List String), parts ≠ [] →
      buildParts maxLen rs i parts = parts ∨
      ((joinNl (buildParts maxLen rs i parts)).length ≤ maxLen + 1 ∧
        buildParts maxLen rs i parts ≠ []) := by
  induction rs with
  | nil => intro i parts _; exact Or.inl rfl
  | cons r rest ih =>
    intro i parts hne
    by_cases hneg : negativeRelevance r = true
    · rw [buildParts_skip maxLen i r rest parts hneg]
      exact ih (i + 1) parts hne
    · have hneg' : negativeRelevance r = false := by simpa using hneg
      by_cases hbud : maxLen < (joinNl parts).length + (resultPart i r).length
      · exact Or.inl (buildParts_stop maxLen i r rest parts hneg' hbud)
      · rw [buildParts_add maxLen i r rest parts hneg' hbud]
        have hne2 : parts ++ [resultPart i r] ≠ [] := by simp
        have hlen : (joinNl (parts ++ [resultPart i r])).length ≤ maxLen + 1 := by
          rw [joinNl_append_singleton_length parts (resultPart i r) hne]
          omega
        rcases ih (i + 1) (parts ++ [resultPart i r]) hne2 with h | ⟨h1, h2⟩
        · exact Or.inr ⟨by rw [h]; exact hlen, by rw [h]; exact hne2⟩
        · exact Or.inr ⟨h1, h2⟩

/-- Claim C5 (counterexample): a single short result under budget 102 yields
a context block of 138 characters - the footer and joining newlines are
appended after the length check, so the output exceeds `max_length`. -/
theorem c5_counterexample :
    (get_km_context [{ content := "", source := "s" }] 102).length = 138 ∧ 102 < 138 := by
  decide

/-- Claim C5 (amended): result bodies are truncated to 500 characters (plus
ellipsis) before the budget is checked, and result entries stop being added
once the joined parts plus the next part would exceed the budget; but the
footer and the joining newlines are appended after that check, so the block
is bounded by `max_length + 36` (one joining newline past the budget, one
more newline, and the 34-character footer) rather than by `max_length`. -/
theorem c5_context_budget :
    (∀ (results : List KMQueryResult) (maxLen : Nat),
      (get_km_context results maxLen).length ≤ maxLen + 36) ∧
    (∀ c : String, (truncateContent c).length ≤ 503) ∧
    (∀ (maxLen i : Nat) (r : KMQueryResult) (rest : List KMQueryResult)
        (parts : List String),
      negativeRelevance r = false →
      maxLen < (joinNl parts).length + (resultPart i r).length →
      buildParts maxLen (r :: rest) i parts = parts) := by
  refine ⟨?_, ?_, buildParts_stop⟩
  · intro results maxLen
    simp only [get_km_context]
    by_cases hres : results.isEmpty
    · rw [if_pos hres]
      simp
    · rw [if_neg hres]
      rcases buildParts_cases maxLen results 1 [kmContextHeader] (by simp) with h | ⟨hb, hne⟩
      · rw [h]
        simp
      · by_cases hl : (buildParts maxLen results 1 [kmContextHeader]).length = 1
        · rw [if_pos hl]
          simp
        · rw [if_neg hl, joinNl_append_singleton_length _ _ hne]
          have hf : kmContextFooter.length = 34 := rfl
          omega
  · intro c
    rw [truncateContent]
    split
    · rw [String.length_append]
      have h1 : (String.mk (c.data.take 500)).length = (c.data.take 500).length := rfl
      have h2 : ("..." : String).length = 3 := rfl
      have h3 : (c.data.take 500).length = min 500 c.data.length := List.length_take 500 c.data
      have h4 : min 500 c.data.length ≤ 500 := Nat.min_le_left _ _
      omega
    · next hc =>
      omega

/-- Claim C5 witness: the stop-adding equation applied at a concrete input
whose part exceeds the budget. -/
theorem c5_witness :
    buildParts 0 [{ content := "", source := "s" }] 1 [kmContextHeader] = [kmContextHeader] :=
  c5_context_budget.2.2 0 1 { content := "", source := "s" } [] [kmContextHeader]
    (by decide) (by decide)

/-! ## Claim C6 - silent skipping of tools -/

/-- A fixed environment of tool outcomes for concrete scenarios. -/
def toolsEnv0 : ToolsEnv :=
  { webResult := { tool_name := "web_search", success := true, context := some "w" },
    kmResult := { tool_name := "km_search", success := true, context := some "k" },
    fileResult := { tool_name := "file_search", success := true, context := some "f" } }

/-- Claim C6 (counterexample): with no tool flags set, one uploaded file and
file search unavailable, `_execute_tools` does not skip silently - it
returns an explicit failure entry for file search. -/
theorem c6_counterexample :
    execute_tools toolsEnv0 false false false false false ["notes.txt"] =
      [fileSearchUnavailable] ∧
    fileSearchUnavailable.success = false ∧
    fileSearchUnavailable.error = some "File search not available" := by
  decide

/-- Claim C6 (amended): web search contributes an entry iff its flag is set
and the tool is available, knowledge search iff its flag is set and the KM
connector tool exists - both are otherwise skipped silently; file search
contributes nothing when no files are uploaded, the tool result when files
are uploaded and the tool is available, and an explicit failure entry (not a
silent skip) when files are uploaded but the tool is unavailable. -/
theorem c6_tool_selection :
    ∀ (env : ToolsEnv) (web_available file_available km_tool_set : Bool)
      (enable_web_search enable_km_search : Bool) (uploaded_files : List String),
      execute_tools env web_available file_available km_tool_set
          enable_web_search enable_km_search uploaded_files =
        (if enable_web_search && web_available then [env.webResult] else []) ++
        (if enable_km_search && km_tool_set then [env.kmResult] else []) ++
        (if uploaded_files = [] then []
         else if file_available then [env.fileResult] else [fileSearchUnavailable]) := by
  intro env wa fa kt ew ek files
  cases ew <;> cases wa <;> cases ek <;> cases kt <;> cases fa <;>
    cases files <;> simp [execute_tools]

/-! ## Claim C7 - empty selection lists -/

/-- An active connection with both selection lists empty. -/
def connNoSelections : KMConnection :=
  { id := "kn", name := "N", status := .active }

/-- A key store with no stored credentials. -/
def noKeys : String → Option String := fun _ => none

/-- Claim C7 (counterexample): a selected connection with empty selection
lists does appear in the error list when no client can be built for it (the
client check precedes the empty-selection check): with no stored API key the
call records a `Could not create client` error entry for it. -/
theorem c7_counterexample :
    (aggregateOf (search_and_store noKeys envTimeout
        { storage := [connNoSelections], clients := [] }
        "conv" "q" (some ["kn"]) 5).1).map (fun r => r.errors) =
      some [{ connection_id := "kn", connection_name := "N",
              error_type := "unknown",
              message := "Could not create client for connection kn" }] ∧
    connNoSelections.selected_collection_names = [] ∧
    connNoSelections.selected_corpus_ids = [] := by
  decide

/-- Claim C7 (amended): provided a client is available for it (already
cached, or a truthy API key is stored), querying a connection whose two
selection lists are both empty succeeds with zero results and an empty
context, and the per-connection loop records no error entry for it. -/
theorem c7_empty_selection :
    ∀ (apiKeys : String → Option String) (env : KMEnv) (st : ConnectorState)
      (c : KMConnection) (q : String) (n : Nat),
      (st.clients.contains c.id ∨ pyTruthyOptStr (apiKeys c.id) = true) →
      c.selected_collection_names = [] →
      c.selected_corpus_ids = [] →
      (query_connection apiKeys env st c q n).1 = .ok (emptySelectionResult c) ∧
      (emptySelectionResult c).success = true ∧
      (emptySelectionResult c).results_count = 0 ∧
      (emptySelectionResult c).results = [] ∧
      (emptySelectionResult c).context = "" ∧
      (∀ rest : List KMConnection,
        (runConnections apiKeys env q n (c :: rest) st).2.1 =
          (runConnections apiKeys env q n rest
            (query_connection apiKeys env st c q n).2).2.1) := by
  intro apiKeys env st c q n hclient hcols hcorp
  have hok : (getClient apiKeys st c.id).1 = true := by
    rw [getClient]
    rcases hclient with h | h
    · rw [if_pos h]
    · by_cases hc : st.clients.contains c.id = true
      · rw [if_pos hc]
      · rw [if_neg hc, if_pos h]
  have hq : (query_connection apiKeys env st c q n).1 = .ok (emptySelectionResult c) := by
    rw [query_connection]
    simp only [hok, Bool.true_eq_false, if_false, hcols, hcorp, and_self, if_true]
  refine ⟨hq, rfl, rfl, rfl, rfl, ?_⟩
  intro rest
  simp only [runConnections, hq]

/-- Claim C7 witness: the amended theorem applied to the concrete
no-selection connection with a stored API key. -/
theorem c7_witness :
    (query_connection constKeys envTimeout
        { storage := [connNoSelections], clients := [] }
        connNoSelections "q" 5).1 = .ok (emptySelectionResult connNoSelections) :=
  (c7_empty_selection constKeys envTimeout
    { storage := [connNoSelections], clients := [] }
    connNoSelections "q" 5 (Or.inr (by decide)) rfl rfl).1

/-! ## Claim C8 - conversation history cap -/

/-- One completed turn never leaves more than `2 * m` stored messages, for
`m ≥ 1`: the trim keeps exactly the last `m * 2` entries when the appended
history is longer. -/
theorem historyAfterTurn_length_le (m : Nat) (hist : List ChatMessage)
    (u a : String) (hm : 1 ≤ m) :
    (historyAfterTurn m hist u a).length ≤ 2 * m := by
  rw [historyAfterTurn]
  by_cases hc : m * 2 <
      (hist ++ [({ role := "user", content := u } : ChatMessage),
        { role := "assistant", content := a }]).length
  · rw [if_pos hc, pySliceLast, if_neg (by omega : ¬ m * 2 = 0), List.length_drop]
    omega
  · rw [if_neg hc]
    omega

/-- The stored history after a turn is a suffix of the appended history:
trimming drops oldest entries first. -/
theorem historyAfterTurn_suffix (m : Nat) (hist : List ChatMessage) (u a : String) :
    (historyAfterTurn m hist u a) <:+
      (hist ++ [{ role := "user", content := u }, { role := "assistant", content := a }]) := by
  rw [historyAfterTurn]
  by_cases hc : m * 2 <
      (hist ++ [({ role := "user", content := u } : ChatMessage),
        { role := "assistant", content := a }]).length
  · rw [if_pos hc, pySliceLast]
    by_cases h0 : m * 2 = 0
    · rw [if_pos h0]
    · rw [if_neg h0]
      exact List.drop_suffix _ _
  · rw [if_neg hc]

/-- Claim C8 (counterexample): with `max_history_messages = 0` the Python
trim `history[-0:]` keeps the whole list, so one completed turn leaves 2
stored messages although the claimed cap `2 x 0` is 0. -/
theorem c8_counterexample :
    (historyAfterTurn 0 [] "u" "a").length = 2 ∧ ¬ ((2 : Nat) ≤ 2 * 0) := by
  decide

/-- Claim C8 (amended): for every agent configured with
`max_history_messages ≥ 1`, the stored conversation history never exceeds
`2 * max_history_messages` entries after any number of completed turns
(whatever history an individual turn starts from), and trimming drops the
oldest entries first (the stored history is a suffix of the appended one);
with `max_history_messages = 0` the trim is a no-op (`lst[-0:]` is the whole
list) and the cap fails. -/
theorem c8_history_cap :
    (∀ (m : Nat) (hist : List ChatMessage) (u a : String), 1 ≤ m →
      (historyAfterTurn m hist u a).length ≤ 2 * m ∧
      (historyAfterTurn m hist u a) <:+
        (hist ++ [{ role := "user", content := u },
                  { role := "assistant", content := a }])) ∧
    (∀ (m : Nat) (turns : List (String × String)), 1 ≤ m →
      (historyAfterTurns m turns).length ≤ 2 * m) := by
  constructor
  · intro m hist u a hm
    exact ⟨historyAfterTurn_length_le m hist u a hm, historyAfterTurn_suffix m hist u a⟩
  · intro m turns hm
    have haux : ∀ (ts : List (String × String)) (hist : List ChatMessage),
        hist.length ≤ 2 * m →
        (List.foldl (fun h t => historyAfterTurn m h t.1 t.2) hist ts).length ≤ 2 * m := by
      intro ts
      induction ts with
      | nil => intro hist hh; simpa using hh
      | cons t rest ih =>
        intro hist _
        rw [List.foldl_cons]
        exact ih (historyAfterTurn m hist t.1 t.2)
          (historyAfterTurn_length_le m hist t.1 t.2 hm)
    exact haux turns [] (by simp)

/-- Claim C8 witness: the cap applied concretely with `m = 1` after two
turns. -/
theorem c8_witness :
    (historyAfterTurns 1 [("u1", "a1"), ("u2", "a2")]).length ≤ 2 * 1 :=
  c8_history_cap.2 1 [("u1", "a1"), ("u2", "a2")] (by decide)

/-! ## Claim C9 - per-connection result width -/

/-- A connection with one selected collection and one selected corpus. -/
def connTwoSources : KMConnection :=
  { id := "kd", name := "D", status := .active,
    selected_collection_names := ["col"], selected_corpus_ids := [7] }

/-- An environment answering the collections query and the corpus query with
one document each. -/
def envTwoSources : KMEnv :=
  { collectionsResp := fun _ _ => .ok oneDocResponse,
    corpusResp := fun _ _ _ => .ok { documents := ["dd"], metadatas := [{}], distances := [3] } }

/-- Claim C9 (counterexample): with `n_results = 1`, a connection whose
collections query and corpus query each return one document contributes 2
results - the code truncates to `n_results * 2`, not to `n_results`. -/
theorem c9_counterexample :
    ((query_connection constKeys envTwoSources
        { storage := [connTwoSources], clients := [] }
        connTwoSources "q" 1).1.map (fun r => r.results_count)) = .ok 2 ∧
    ¬ ((2 : Nat) ≤ 1) := by
  decide

/-- Claim C9 (amended): every successful per-connection result set contains
at most `2 * n_results` entries (the code truncates the sorted merged list to
`n_results * 2` before aggregation), and the reported per-connection count
equals the length of that truncated list. -/
theorem c9_per_connection_truncation :
    ∀ (apiKeys : String → Option String) (env : KMEnv) (st : ConnectorState)
      (c : KMConnection) (q : String) (n : Nat) (r : KMSearchResult),
      (query_connection apiKeys env st c q n).1 = .ok r →
      r.results.length ≤ 2 * n ∧ r.results_count = r.results.length := by
  intro apiKeys env st c q n r h
  rw [query_connection] at h
  by_cases h1 : (getClient apiKeys st c.id).1 = false
  · rw [if_pos h1] at h
    exact absurd h (by simp)
  · rw [if_neg h1] at h
    by_cases h2 : c.selected_collection_names = [] ∧ c.selected_corpus_ids = []
    · rw [if_pos h2] at h
      simp only [Except.ok.injEq] at h
      subst h
      exact ⟨by simp [emptySelectionResult], rfl⟩
    · rw [if_neg h2] at h
      cases hcq : collectionsQuery env q c with
      | error e => rw [hcq] at h; exact absurd h (by simp)
      | ok colResults =>
        rw [hcq] at h
        simp only [Except.ok.injEq] at h
        subst h
        constructor
        · simp only [List.length_take]
          have := Nat.min_le_left (n * 2)
            (sortByRelevanceDesc (colResults ++
              runCorpusQueries env q c.id c.selected_corpus_ids)).length
          omega
        · rfl

/-- Claim C9 witness: the truncation bound applied to the concrete
empty-selection connection. -/
theorem c9_witness :
    (emptySelectionResult connNoSelections).results.length ≤ 2 * 1 ∧
    (emptySelectionResult connNoSelections).results_count =
      (emptySelectionResult connNoSelections).results.length :=
  c9_per_connection_truncation constKeys envTimeout
    { storage := [connNoSelections], clients := [] } connNoSelections "q" 1
    (emptySelectionResult connNoSelections) (by decide)

/-! ## Claim C10 - explicit connection id resolution -/

/-- Every entry of the error list names a connection of the queried list. -/
theorem runConnections_errors_mem (apiKeys : String → Option String) (env : KMEnv)
    (q : String) (n : Nat) :
    ∀ (conns : List KMConnection) (st : ConnectorState) (e : KMErrorEntry),
      e ∈ (runConnections apiKeys env q n conns st).2.1 →
      ∃ c ∈ conns, e.connection_id = c.id ∧ e.connection_name = c.name := by
  intro conns
  induction conns with
  | nil =>
    intro st e h
    simp [runConnections] at h
  | cons c rest ih =>
    intro st e h
    cases hq : (query_connection apiKeys env st c q n).1 with
    | ok r =>
      simp only [runConnections, hq] at h
      obtain ⟨c2, hc2, he⟩ := ih _ e h
      exact ⟨c2, List.mem_cons_of_mem c hc2, he⟩
    | error er =>
      simp only [runConnections, hq, List.mem_cons] at h
      rcases h with h | h
      · exact ⟨c, List.mem_cons_self c rest, by rw [h]; exact ⟨rfl, rfl⟩⟩
      · obtain ⟨c2, hc2, he⟩ := ih _ e h
        exact ⟨c2, List.mem_cons_of_mem c hc2, he⟩

/-- An inactive connection with selections, used as a dropped id target. -/
def connInactive : KMConnection :=
  { id := "ki", name := "I", status := .inactive, selected_collection_names := ["col"] }

/-- Claim C10: with an explicit non-empty id list, the selected set is
exactly the resolvable ids filtered to active connections (unknown and
non-active ids are dropped with no error entry: every error entry names a
selected connection); `connections_queried` counts only the selected set;
and when nothing remains the call returns the not-configured response with
the state unchanged. -/
theorem c10_explicit_connection_ids :
    ∀ (apiKeys : String → Option String) (env : KMEnv) (st : ConnectorState)
      (cid q : String) (ids : List String) (n : Nat),
      ids ≠ [] →
      selectConnections st.storage (some ids) =
        (ids.filterMap (getConnection st.storage)).filter
          (fun c => c.status = KMConnectionStatus.active) ∧
      (selectConnections st.storage (some ids) = [] →
        search_and_store apiKeys env st cid q (some ids) n =
          (.notConfigured "No active KM connections with selections found", st)) ∧
      (∀ (r : AggregateResult) (st1 : ConnectorState),
        search_and_store apiKeys env st cid q (some ids) n = (.aggregate r, st1) →
          r.connections_queried = (selectConnections st.storage (some ids)).length ∧
          ∀ e ∈ r.errors, ∃ c ∈ selectConnections st.storage (some ids),
            e.connection_id = c.id ∧ e.connection_name = c.name) := by
  intro apiKeys env st cid q ids n hne
  refine ⟨?_, ?_, ?_⟩
  · rw [selectConnections, if_neg hne]
  · intro hsel
    rw [search_and_store, if_pos hsel]
  · intro r st1 h
    rw [search_and_store] at h
    by_cases hsel : selectConnections st.storage (some ids) = []
    · rw [if_pos hsel] at h
      exact absurd (congrArg Prod.fst h) (by simp)
    · rw [if_neg hsel] at h
      have h1 := congrArg Prod.fst h
      simp only at h1
      cases h1
      exact ⟨rfl, fun e he => runConnections_errors_mem apiKeys env q n _ st e he⟩

/-- Claim C10 witness: one unknown id resolves to nothing and is silently
dropped, leaving no selected connection, so the call returns the
not-configured response. -/
theorem c10_witness :
    search_and_store constKeys envAuthFailA
        { storage := [connActiveA, connInactive], clients := [] }
        "conv" "q" (some ["missing", "ki"]) 5 =
      (.notConfigured "No active KM connections with selections found",
       { storage := [connActiveA, connInactive], clients := [] }) :=
  (c10_explicit_connection_ids constKeys envAuthFailA
    { storage := [connActiveA, connInactive], clients := [] }
    "conv" "q" ["missing", "ki"] 5 (by decide)).2.1 (by decide)

/-- The concrete aggregate produced for one cached-client connection with no
selections, used to instantiate the accounting theorem. -/
def c2AggWitness : AggregateResult :=
  { success := true,
    message := "Retrieved 0 results from 1 connection(s)",
    results := [emptySelectionResult connNoSelections],
    results_count := 0,
    connections_queried := 1,
    connections_successful := 1,
    errors := [],
    partial_failure := false }

/-- The connector state of that concrete run (unchanged by it). -/
def c2StateWitness : ConnectorState := { storage := [connNoSelections], clients := ["kn"] }

/-- Claim C2 witness: the accounting equalities applied to the concrete
one-connection run. -/
theorem c2_witness :
    c2AggWitness.connections_queried =
      (selectConnections c2StateWitness.storage (some ["kn"])).length ∧
    c2AggWitness.connections_successful = c2AggWitness.results.length ∧
    c2AggWitness.results_count =
      (c2AggWitness.results.map (fun x => x.results_count)).sum ∧
    (c2AggWitness.partial_failure = true ↔
      (c2AggWitness.errors ≠ [] ∧ c2AggWitness.results ≠ [])) :=
  c2_aggregate_accounting.1 constKeys envTimeout c2StateWitness "conv" "q"
    (some ["kn"]) 5 c2AggWitness c2StateWitness (by decide)
